import Mathlib

/-!
# Verification of the tower service-composition core

A shallow embedding of the routing and adapter core of the `tower` crate
(`src/steer/mod.rs`, `src/util/optional/mod.rs`, `src/util/mod.rs`,
`src/make/make_connection.rs`) together with proofs of the specified
properties.

Modelling conventions:

* A Rust service value of type `S` is embedded as a Lean value of type `S`;
  its `call` method is an explicit state-passing function
  `call_S : S → Req → S × Fut` returning the updated service state together
  with the pending result (the future handle).  The claims in scope only
  concern which future a combinator returns and how the service states
  change, so the future type stays abstract where the code keeps it
  abstract (`Steer`, `MakeConnection`) and is the resolved
  `Except E R` where the claims are about resolved results
  (`Optional`, `MapResponse`).
* A Rust panic (out-of-bounds `Vec` indexing) is modelled as `Option.none`:
  the operation aborts and produces nothing.
* `&[S]` (a shared borrow) is modelled by passing the list by value to a
  function whose result cannot contain an updated list, mirroring that the
  borrow checker forbids mutation through it.
-/

namespace Tower

/-! ## Steer (src/steer/mod.rs) -/

/-- The `Picker<S, Req>` trait: `fn pick(&mut self, r: &Req, services: &[S]) -> usize`.
A picker of state type `F` consumes its state, the request and the (read-only)
service slice, and produces its updated private state and an index. -/
def Picker (F S Req : Type) : Type :=
  F → Req → List S → F × Nat

/-- The blanket `impl Picker for F where F: Fn(&Req, &[S]) -> usize`:
a plain function is a picker whose state never changes. -/
def fnPicker {S Req : Type} : Picker (Req → List S → Nat) S Req :=
  fun f r services => (f, f r services)

/-- `Steer<S, F, Req>`: a router holding a picker (`router` field) and an ordered
list of services.  The `PhantomData<Req>` marker field carries no data and is
dropped from the embedding. -/
structure Steer (S F : Type) : Type where
  router : F
  services : List S

/-- `Vec::from_iter` as performed by `services.into_iter().collect()`:
each element produced by the iterator is pushed onto the end of the vector
in turn. -/
def collectVec {S : Type} (it : List S) : List S :=
  it.foldl (fun v s => v ++ [s]) []

/-- `Steer::new(services, router)`: collect the service iterator into a `Vec`
and store it together with the picker. -/
def Steer.new {S F : Type} (services : List S) (router : F) : Steer S F :=
  { router := router, services := collectVec services }

/-- `Steer::call` (src/steer/mod.rs lines 130–134):

```rust
fn call(&mut self, req: Req) -> Self::Future {
    let idx = self.router.pick(&req, &self.services[..]);
    let cl = &mut self.services[idx];
    cl.call(req)
}
```

The picker runs first (updating only its own state); the service `Vec` is then
indexed at the returned index — a Rust panic (modelled as `none`) if it is out
of range — and the chosen service's `call` runs, updating that one slot. -/
def Steer.call {S F Req Fut : Type} (pick : Picker F S Req) (call_S : S → Req → S × Fut)
    (self : Steer S F) (req : Req) : Option (Steer S F × Fut) :=
  let pr := pick self.router req self.services
  if h : pr.2 < self.services.length then
    let cl := self.services.get ⟨pr.2, h⟩
    let p := call_S cl req
    some ({ router := pr.1, services := self.services.set pr.2 p.1 }, p.2)
  else
    none

/-- `impl Clone for Steer where S: Clone, F: Clone` (src/steer/mod.rs lines
137–149): clones the picker and element-wise clones the service `Vec`
(`Vec::clone` clones every element in order). -/
def Steer.clone {S F : Type} (clone_S : S → S) (clone_F : F → F) (self : Steer S F) :
    Steer S F :=
  { router := clone_F self.router, services := self.services.map clone_S }

/-! ## Helper lemmas -/

theorem foldl_push_eq_append {S : Type} (l acc : List S) :
    l.foldl (fun v s => v ++ [s]) acc = acc ++ l := by
  induction l generalizing acc with
  | nil => simp
  | cons x xs ih => simp [List.foldl, ih, List.append_assoc]

theorem collectVec_eq {S : Type} (l : List S) : collectVec l = l := by
  simp [collectVec, foldl_push_eq_append]

/-! ## Claims about Steer -/

/-- C1: for every router over `N ≥ 1` services and every picker whose pick
returns an index `i < N` for the given request, `Steer::call` returns exactly
the pending result produced by the service stored at index `i` for that
request; every slot of the service list other than `i` is untouched, so no
other service is invoked. -/
theorem steer_call_routes_to_picked {S F Req Fut : Type}
    (pick : Picker F S Req) (call_S : S → Req → S × Fut)
    (self : Steer S F) (req : Req) (i : Nat)
    (hpick : (pick self.router req self.services).2 = i)
    (hlt : i < self.services.length) :
    ∃ post : Steer S F,
      Steer.call pick call_S self req =
        some (post, (call_S (self.services.get ⟨i, hlt⟩) req).2) ∧
      post.services = self.services.set i (call_S (self.services.get ⟨i, hlt⟩) req).1 ∧
      ∀ j, j ≠ i → post.services[j]? = self.services[j]? := by
  refine ⟨{ router := (pick self.router req self.services).1,
            services := self.services.set i (call_S (self.services.get ⟨i, hlt⟩) req).1 },
          ?_, rfl, ?_⟩
  · simp only [Steer.call, hpick]
    rw [dif_pos hlt]
  · intro j hj
    exact List.getElem?_set_ne (Ne.symm hj)

/-- C1 witness: the spec's concrete scenario — services `S0 = 42` and `S1 = 57`
(each returning its stored value as the pending result), a picker that always
returns 1: calling the router yields 57 and slot 0 is untouched. -/
theorem steer_call_routes_to_picked_witness :
    ∃ post : Steer Nat (String → List Nat → Nat),
      Steer.call fnPicker (fun (n : Nat) (_ : String) => (n, n))
        (Steer.new [42, 57] (fun _ _ => 1)) "foo" = some (post, 57) ∧
      post.services = [42, 57] ∧
      ∀ j, j ≠ 1 → post.services[j]? = ([42, 57] : List Nat)[j]? := by
  have h := steer_call_routes_to_picked fnPicker (fun (n : Nat) (_ : String) => (n, n))
    (Steer.new [42, 57] (fun _ _ => 1)) "foo" 1 rfl (by decide)
  simpa [Steer.new, collectVec_eq] using h

/-- C2: if the picker returns an index out of range (`≥` the number of
services), `Steer::call` aborts via the out-of-bounds `Vec` indexing fault
(modelled as `none`): no pending result is returned and — since the outcome is
the same for every `call_S` — no contained service is invoked. -/
theorem steer_call_out_of_range {S F Req Fut : Type}
    (pick : Picker F S Req) (call_S : S → Req → S × Fut)
    (self : Steer S F) (req : Req)
    (hge : self.services.length ≤ (pick self.router req self.services).2) :
    Steer.call pick call_S self req = none := by
  simp only [Steer.call]
  rw [dif_neg (Nat.not_lt.mpr hge)]

/-- C2 witness: two services, a picker that always returns 5: the call aborts. -/
theorem steer_call_out_of_range_witness :
    Steer.call fnPicker (fun (n : Nat) (_ : String) => (n, n))
      (Steer.new [42, 57] (fun _ _ => 5)) "foo" = none :=
  steer_call_out_of_range fnPicker (fun (n : Nat) (_ : String) => (n, n))
    (Steer.new [42, 57] (fun _ _ => 5)) "foo" (by decide)

/-- C7: `Steer::new` stores exactly the services produced by the input
sequence, in the same order: the stored list has the same length, and for
every `k` the stored slot `k` is the `(k+1)`-th service produced. -/
theorem steer_new_stores_in_order {S F : Type} (services : List S) (router : F) :
    (Steer.new services router).services.length = services.length ∧
    ∀ k : Nat, (Steer.new services router).services[k]? = services[k]? := by
  constructor
  · simp [Steer.new, collectVec_eq]
  · intro k
    simp [Steer.new, collectVec_eq]

/-- C8: the picker does not mutate the service collection.  Whenever
`Steer::call` succeeds, the dispatched service is looked up in the original
(unchanged) collection at the picked index, the post-state collection has the
same length with every slot other than the invoked one equal to the original,
and only the picker's own private state is stored back as the new router
state. -/
theorem steer_picker_preserves_services {S F Req Fut : Type}
    (pick : Picker F S Req) (call_S : S → Req → S × Fut)
    (self : Steer S F) (req : Req) (post : Steer S F) (fut : Fut)
    (h : Steer.call pick call_S self req = some (post, fut)) :
    post.router = (pick self.router req self.services).1 ∧
    post.services.length = self.services.length ∧
    (∀ j, j ≠ (pick self.router req self.services).2 →
      post.services[j]? = self.services[j]?) ∧
    ∃ hlt : (pick self.router req self.services).2 < self.services.length,
      fut = (call_S (self.services.get ⟨(pick self.router req self.services).2, hlt⟩) req).2 := by
  simp only [Steer.call] at h
  by_cases hlt : (pick self.router req self.services).2 < self.services.length
  · rw [dif_pos hlt] at h
    injection h with h'
    have hpost : post =
        { router := (pick self.router req self.services).1,
          services := self.services.set (pick self.router req self.services).2
            (call_S (self.services.get ⟨(pick self.router req self.services).2, hlt⟩) req).1 } :=
      (congrArg Prod.fst h').symm
    have hfut : fut =
        (call_S (self.services.get ⟨(pick self.router req self.services).2, hlt⟩) req).2 :=
      (congrArg Prod.snd h').symm
    subst hpost
    refine ⟨rfl, List.length_set _ _ _, fun j hj => List.getElem?_set_ne (Ne.symm hj),
      hlt, hfut⟩
  · rw [dif_neg hlt] at h
    exact absurd h (by simp)

/-- C8 witness: a concrete successful call through the router (picker picks
slot 0), with the frame fact for the untouched slot 1 evaluated. -/
theorem steer_picker_preserves_services_witness :
    ([42, 57] : List Nat)[1]? =
      (Steer.new [42, 57] (fun (_ : String) (_ : List Nat) => 0)).services[1]? :=
  (steer_picker_preserves_services fnPicker (fun (n : Nat) (_ : String) => (n, n))
    (Steer.new [42, 57] (fun _ _ => 0)) "foo"
    ⟨(fun _ _ => 0), [42, 57]⟩ 42
    (by simp [Steer.call, Steer.new, collectVec_eq, fnPicker])).2.2.1 1 (by decide)

/-- C9: cloning a router (given clone operations for the picker and the
services, as the `Clone` bounds on `S` and `F` require) clones the picker
state and element-wise clones the service list, preserving length and order. -/
theorem steer_clone_elementwise {S F : Type} (clone_S : S → S) (clone_F : F → F)
    (self : Steer S F) :
    (Steer.clone clone_S clone_F self).router = clone_F self.router ∧
    (Steer.clone clone_S clone_F self).services.length = self.services.length ∧
    ∀ k : Nat, (Steer.clone clone_S clone_F self).services[k]? =
      (self.services[k]?).map clone_S := by
  refine ⟨rfl, by simp [Steer.clone], fun k => ?_⟩
  simp [Steer.clone]

/-! ## Optional (src/util/optional/mod.rs) -/

/-- `crate::BoxError` (`Box<dyn Error + Send + Sync>`) as it is used by
`Optional` over an inner service with error type `E`: either the widening
(`Into<BoxError>`) of an inner error, or the dedicated `util::error::optional`
absent-inner error value — a typed error distinct from every widened inner
error. -/
inductive BoxError (E : Type) : Type where
  | wrapped : E → BoxError E
  | absent : BoxError E
  deriving DecidableEq

/-- `Optional<T>`: owns a nullable inner service. -/
structure Optional (T : Type) : Type where
  inner : Option T

/-- `Optional::new(inner)`. -/
def Optional.new {T : Type} (inner : Option T) : Optional T :=
  { inner := inner }

/-- Modelled from the spec: the resolution of `ResponseFuture` — the file
`src/util/optional/future.rs` it lives in is not among the sources, only its
use in `Optional::call` is.  Per the spec (§4.4), when an inner pending result
is present its outcome is returned with the error widened to the erased error
type, and when none is present the future resolves immediately to the
dedicated "no service configured" error. -/
def ResponseFuture.resolve {E R : Type} : Option (Except E R) → Except (BoxError E) R
  | some (Except.ok r) => Except.ok r
  | some (Except.error e) => Except.error (BoxError.wrapped e)
  | none => Except.error BoxError.absent

/-- `Optional::call` (src/util/optional/mod.rs lines 43–46):

```rust
fn call(&mut self, request: Request) -> Self::Future {
    let inner = self.inner.as_mut().map(|i| i.call(request));
    ResponseFuture::new(inner)
}
```

If an inner service is present it is called (updating its state) and its
pending result is handed to `ResponseFuture`; otherwise `ResponseFuture`
receives nothing. -/
def Optional.call {T Req E R : Type} (call_T : T → Req → T × Except E R)
    (self : Optional T) (req : Req) : Optional T × Except (BoxError E) R :=
  let stepped := self.inner.map (fun i => call_T i req)
  ({ inner := stepped.map Prod.fst }, ResponseFuture.resolve (stepped.map Prod.snd))

/-- Readiness state as the spec describes `report_readiness` results:
ready, pending (wake later), or a permanent error. -/
inductive ReadinessState (E : Type) : Type where
  | ready : ReadinessState E
  | pending : ReadinessState E
  | failed : E → ReadinessState E
  deriving DecidableEq

/-- Modelled from the spec: `Optional`'s readiness report — the `Service`
impl in src/util/optional/mod.rs has no `poll_ready` of its own (that part of
the repository is not among the sources).  Per the spec (§4.4) it is ready
whenever the inner is absent, and otherwise forwards the present inner's
readiness, widening a readiness error like the call path does. -/
def Optional.report_readiness {T E : Type} (ready_T : T → ReadinessState E)
    (self : Optional T) : ReadinessState (BoxError E) :=
  match self.inner with
  | none => ReadinessState.ready
  | some t =>
    match ready_T t with
    | ReadinessState.ready => ReadinessState.ready
    | ReadinessState.pending => ReadinessState.pending
    | ReadinessState.failed e => ReadinessState.failed (BoxError.wrapped e)

/-! ## Claims about Optional -/

/-- C3: an `Optional` constructed with no inner service resolves every call,
for every request and every possible inner-service behaviour, immediately to
the dedicated absent-inner error, with the (absent) inner state untouched —
since the outcome is the same for every `call_T`, no inner service is ever
invoked and no other work is done. -/
theorem optional_absent_call {T Req E R : Type} (call_T : T → Req → T × Except E R)
    (req : Req) :
    Optional.call call_T (Optional.new none) req =
      (Optional.new none, Except.error BoxError.absent) :=
  rfl

/-- C4: an `Optional` constructed with a present inner service forwards the
request to it: a successful inner result is returned unchanged, and an inner
error is returned widened into the erased error type; in both cases the inner
service's own state update is kept. -/
theorem optional_present_call {T Req E R : Type} (call_T : T → Req → T × Except E R)
    (t : T) (req : Req) :
    (∀ t' v, call_T t req = (t', Except.ok v) →
      Optional.call call_T (Optional.new (some t)) req =
        (Optional.new (some t'), Except.ok v)) ∧
    (∀ t' e, call_T t req = (t', Except.error e) →
      Optional.call call_T (Optional.new (some t)) req =
        (Optional.new (some t'), Except.error (BoxError.wrapped e))) := by
  constructor
  · intro t' v h
    simp [Optional.call, Optional.new, h, ResponseFuture.resolve]
  · intro t' e h
    simp [Optional.call, Optional.new, h, ResponseFuture.resolve]

/-- C4 witness: an inner service on `Nat` requests that succeeds with `r + 1`
for even requests and fails with `r` for odd ones, evaluated at both a
success and a failure. -/
theorem optional_present_call_witness :
    Optional.call
        (fun (u : Unit) (r : Nat) =>
          (u, if r % 2 = 0 then Except.ok (r + 1) else Except.error r))
        (Optional.new (some ())) 2 =
      (Optional.new (some ()), Except.ok 3) ∧
    Optional.call
        (fun (u : Unit) (r : Nat) =>
          (u, if r % 2 = 0 then Except.ok (r + 1) else Except.error r))
        (Optional.new (some ())) 3 =
      (Optional.new (some ()), Except.error (BoxError.wrapped 3)) :=
  ⟨(optional_present_call
      (fun (u : Unit) (r : Nat) =>
        (u, if r % 2 = 0 then Except.ok (r + 1) else Except.error r)) () 2).1 () 3 rfl,
   (optional_present_call
      (fun (u : Unit) (r : Nat) =>
        (u, if r % 2 = 0 then Except.ok (r + 1) else Except.error r)) () 3).2 () 3 rfl⟩

/-- C5: an `Optional` reports ready whenever its inner is absent, and with a
present inner it reports ready exactly when the inner reports ready (the
inner's readiness is forwarded). -/
theorem optional_report_readiness {T E : Type} (ready_T : T → ReadinessState E)
    (self : Optional T) :
    (self.inner = none → Optional.report_readiness ready_T self = ReadinessState.ready) ∧
    (∀ t, self.inner = some t →
      (Optional.report_readiness ready_T self = ReadinessState.ready ↔
        ready_T t = ReadinessState.ready)) := by
  constructor
  · intro h
    simp [Optional.report_readiness, h]
  · intro t h
    simp only [Optional.report_readiness, h]
    cases ready_T t <;> simp

/-- C5 witness: with no inner the report is ready; with a pending inner the
report is ready exactly when the inner is — i.e. it is not ready. -/
theorem optional_report_readiness_witness :
    Optional.report_readiness (fun _ : Unit => (ReadinessState.ready : ReadinessState Unit))
      (Optional.new none) = ReadinessState.ready ∧
    ¬ Optional.report_readiness (fun _ : Unit => (ReadinessState.pending : ReadinessState Unit))
      (Optional.new (some ())) = ReadinessState.ready :=
  ⟨(optional_report_readiness (fun _ : Unit => (ReadinessState.ready : ReadinessState Unit))
      (Optional.new none)).1 rfl,
   fun h =>
    absurd (((optional_report_readiness
        (fun _ : Unit => (ReadinessState.pending : ReadinessState Unit))
        (Optional.new (some ()))).2 () rfl).mp h) (by decide)⟩

/-! ## MapResponse (src/util/mod.rs lines 166–172) -/

/-- `MapResponse<S, F>`: holds the inner service and the response function. -/
structure MapResponse (S F : Type) : Type where
  inner : S
  f : F

/-- `ServiceExt::map_response(self, f)` (src/util/mod.rs lines 166–172)
constructs `MapResponse::new(self, f)`, which stores both. -/
def ServiceExt.map_response {S F : Type} (self : S) (f : F) : MapResponse S F :=
  { inner := self, f := f }

/-- Modelled from the spec: `MapResponse`'s `Service` impl — the file
`src/util/map_response.rs` is not among the sources, only its constructor in
`ServiceExt::map_response` is.  Per the spec (§4.2), the response mapper
applies the pure function to a successful response and passes errors through
unchanged. -/
def MapResponse.call {S Req E R R2 : Type} (call_S : S → Req → S × Except E R)
    (self : MapResponse S (R → R2)) (req : Req) :
    MapResponse S (R → R2) × Except E R2 :=
  let p := call_S self.inner req
  ({ inner := p.1, f := self.f }, Except.map self.f p.2)

/-- Modelled from the spec: `MapResponse`'s readiness report — per the spec
(§4.2) every adapter forwards `report_readiness` unchanged to the inner
service. -/
def MapResponse.report_readiness {S F E : Type} (ready_S : S → ReadinessState E)
    (self : MapResponse S F) : ReadinessState E :=
  ready_S self.inner

/-- C6: the response mapper yields `Ok (f v)` whenever the inner call yields
`Ok v`, yields `Err e` unchanged whenever the inner call yields `Err e`
(keeping the inner state update in both cases), and forwards the inner
service's readiness report unaltered. -/
theorem map_response_spec {S Req E R R2 : Type} (call_S : S → Req → S × Except E R)
    (ready_S : S → ReadinessState E) (self : MapResponse S (R → R2)) (req : Req) :
    (∀ s' v, call_S self.inner req = (s', Except.ok v) →
      MapResponse.call call_S self req = ({ inner := s', f := self.f }, Except.ok (self.f v))) ∧
    (∀ s' e, call_S self.inner req = (s', Except.error e) →
      MapResponse.call call_S self req = ({ inner := s', f := self.f }, Except.error e)) ∧
    MapResponse.report_readiness ready_S self = ready_S self.inner := by
  refine ⟨?_, ?_, rfl⟩
  · intro s' v h
    simp [MapResponse.call, h, Except.map]
  · intro s' e h
    simp [MapResponse.call, h, Except.map]

/-- C6 witness: mapping `(· * 2)` over a service that succeeds with `r + 1`
for even requests and fails with `r` for odd ones. -/
theorem map_response_spec_witness :
    MapResponse.call
        (fun (u : Unit) (r : Nat) =>
          (u, if r % 2 = 0 then Except.ok (r + 1) else Except.error r))
        (ServiceExt.map_response () (fun v : Nat => v * 2)) 2 =
      ({ inner := (), f := fun v : Nat => v * 2 }, Except.ok 6) ∧
    MapResponse.call
        (fun (u : Unit) (r : Nat) =>
          (u, if r % 2 = 0 then Except.ok (r + 1) else Except.error r))
        (ServiceExt.map_response () (fun v : Nat => v * 2)) 3 =
      ({ inner := (), f := fun v : Nat => v * 2 }, Except.error 3) :=
  ⟨(map_response_spec
      (fun (u : Unit) (r : Nat) =>
        (u, if r % 2 = 0 then Except.ok (r + 1) else Except.error r))
      (fun _ => ReadinessState.ready)
      (ServiceExt.map_response () (fun v : Nat => v * 2)) 2).1 () 3 rfl,
   (map_response_spec
      (fun (u : Unit) (r : Nat) =>
        (u, if r % 2 = 0 then Except.ok (r + 1) else Except.error r))
      (fun _ => ReadinessState.ready)
      (ServiceExt.map_response () (fun v : Nat => v * 2)) 3).2.1 () 3 rfl⟩

/-! ## MakeConnection (src/make/make_connection.rs) -/

/-- The blanket `impl MakeConnection<Target> for C where C: Service<Target>`
(src/make/make_connection.rs lines 27–39):

```rust
fn make_connection(&mut self, target: Target) -> Self::Future {
    Service::call(self, target)
}
```

modelled with the same state-passing `call` embedding used throughout. -/
def make_connection {C Target Fut : Type} (call_C : C → Target → C × Fut)
    (self : C) (target : Target) : C × Fut :=
  call_C self target

/-- C10: for every service (whatever its byte-stream-capable response type),
`make_connection` is extensionally equal to the service's own `call`: on every
state and target they produce the same updated state and the same future. -/
theorem make_connection_eq_call {C Target Fut : Type} (call_C : C → Target → C × Fut)
    (self : C) (target : Target) :
    make_connection call_C self target = call_C self target :=
  rfl

end Tower
